import Mathlib

/-!
Verification of the Excel mock-interviewer grading and aggregation pipeline.

This file is a shallow embedding of the scoring core of the repository:

* `src/app.py`    — `grade_answer` (MCQ, fill-blank and free-text branches),
                    `generate_summary_report`, and the static `QUESTION_BANK`;
* `src/api/server.py` — `grade_with_gemini` and the `/grade` endpoint;
* `src/report_generator.py` — `overall_rating`.

Python strings are modelled by `String` (Python slicing, `len`, `in`,
`.lower()` and `.strip()` operate on code points; `.lower()`/`.strip()` are
used here only on ASCII data, matching `String.toLower`/`String.trim`).
Python numbers are modelled by `Int` (scores) and `ℚ` (times and averages);
`round(x, n)` is modelled by idealized round-half-to-even on `ℚ`.
External effects (the HTTP POST to the grading service, the Gemini SDK call
and the parsing of its free-form text) are modelled by small inductive types
enumerating the outcomes the source code distinguishes; everything the
repository itself computes from those outcomes is translated directly.
-/

deriving instance DecidableEq for Except

namespace MockInterviewer

/-! ### Python string primitives -/

/-- `charsLead needle hay` is true when `needle` is an initial segment of
`hay` (character lists compared one by one). -/
def charsLead : List Char → List Char → Bool
  | [], _ => true
  | _ :: _, [] => false
  | x :: xs, y :: ys => x == y && charsLead xs ys

/-- Helper for `strIn`: does `needle` occur as a contiguous run inside
`hay`?  Mirrors the semantics of Python `needle in hay` on strings. -/
def strInAux (needle : List Char) : List Char → Bool
  | [] => needle.isEmpty
  | c :: rest => charsLead needle (c :: rest) || strInAux needle rest

/-- Python substring containment `needle in hay`. -/
def strIn (needle hay : String) : Bool :=
  strInAux needle.toList hay.toList

/-- Whitespace for Python `str.strip()` (the ASCII whitespace characters). -/
def isPySpace (c : Char) : Bool :=
  c == ' ' || c == '\t' || c == '\n' || c == '\r' || c == '\x0b' || c == '\x0c'

/-- Drop the leading whitespace of a character list. -/
def dropSpace : List Char → List Char
  | [] => []
  | c :: rest => if isPySpace c then dropSpace rest else c :: rest

/-- Python `s.strip()` on the character list: drop whitespace at both ends. -/
def pyStripChars (l : List Char) : List Char :=
  ((dropSpace ((dropSpace l).reverse)).reverse)

/-- Python `s.lower().strip()` (ASCII data): lower-case every character,
then trim surrounding whitespace. -/
def pyLowerStrip (s : String) : String :=
  String.mk (pyStripChars (s.toList.map Char.toLower))

/-- Python slicing `s[:n]` (by code points). -/
def pyTake (s : String) (n : Nat) : String :=
  String.mk (s.toList.take n)

/-- Python `str(x)` on an optional string: `None` prints as `"None"`.
Used for `f"... {question.get('answer')}"` in the fill-blank branch. -/
def pyShow : Option String → String
  | some s => s
  | none => "None"

/-- Python list indexing `l[i]`, including negative indices:
`l[-k]` is `l[len l - k]` when `k ≤ len l`, otherwise an `IndexError`
(`none`). -/
def pyIndex (l : List String) (i : Int) : Option String :=
  if 0 ≤ i then l.get? i.toNat
  else if (-i).toNat ≤ l.length then l.get? (l.length - (-i).toNat)
  else none

/-! ### The grading branches of `app.grade_answer` (src/app.py 315-357) -/

/-- The `question_type == "mcq"` branch of `grade_answer`.
`qCorrect` is `question.get("correct", -1)` before the default is applied;
`selected` is the submitted option index.  The only fallible step is the
list indexing `question['options'][correct_idx]` in the incorrect case,
modelled by `Except`. -/
def gradeMcq (qCorrect : Option Int) (options : List String) (selected : Int) :
    Except String (Int × String) :=
  let correctIdx := qCorrect.getD (-1)
  if selected = correctIdx then
    Except.ok (5, "Correct! Well done.")
  else
    match pyIndex options correctIdx with
    | some opt => Except.ok (2, "Incorrect. The correct answer was: " ++ opt)
    | none => Except.error "IndexError"

/-- The `question_type == "fill_blank"` branch of `grade_answer`.
`qAnswer` is `question.get("answer", "")` (kept optional so the revealed
feedback can reproduce Python `str(None)`), `alts` is
`question.get("alternative_answers", [])`, `answer` the submission.
Note: in the substring (partial-credit) test the code lowers and strips the
canonical answer but compares the alternatives verbatim. -/
def gradeFillBlank (qAnswer : Option String) (alts : List String) (answer : String) :
    Int × String :=
  let correct := pyLowerStrip (qAnswer.getD "")
  let user := pyLowerStrip answer
  if user == correct || (alts.map (fun a => pyLowerStrip a)).contains user then
    (5, "Correct! Perfect answer.")
  else if strIn correct user || alts.any (fun alt => strIn alt user) then
    (3, "Partially correct. Close, but not exact.")
  else
    (1, "Incorrect. The answer was: " ++ pyShow qAnswer)

/-- Outcome of the `requests.post(f"{API_BASE}/grade", ...)` call in the
default (free-text / visual-analysis) branch of `grade_answer`, as the
source distinguishes them:

* `exn` — `requests.post` raised (timeout, connection failure);
* `notOk` — a response arrived but `resp.ok` is false (non-2xx);
* `okBadJson` — `resp.ok` but `resp.json()` raised (unparseable body);
* `okJson conv feedback` — `resp.ok`, the body parsed, and
  `conv = some s` when `int(data.get("score", 0))` evaluates to `s`
  (missing key gives `some 0`), `none` when that conversion raises. -/
inductive HttpOutcome : Type
  | exn : HttpOutcome
  | notOk : HttpOutcome
  | okBadJson : HttpOutcome
  | okJson : Option Int → String → HttpOutcome

/-- The `except` fallback of the free-text branch: grade by answer length. -/
def textFallback (answer : String) : Int × String :=
  if 50 < answer.length then
    (3, "Good attempt. Consider being more specific.")
  else
    (2, "Answer needs more detail and explanation.")

/-- The default (free-text / `"analysis"`) branch of `grade_answer`:
a successful parse returns the upstream score unchanged; any exception
falls back to `textFallback`; a non-2xx response falls through the `try`
to `return 2, "Answer evaluated."`. -/
def gradeText (answer : String) (net : HttpOutcome) : Int × String :=
  match net with
  | HttpOutcome.exn => textFallback answer
  | HttpOutcome.notOk => (2, "Answer evaluated.")
  | HttpOutcome.okBadJson => textFallback answer
  | HttpOutcome.okJson conv feedback =>
      match conv with
      | some s => (s, feedback)
      | none => textFallback answer

/-! ### The API server (src/api/server.py) -/

/-- Outcome of the Gemini call and the subsequent in-`try` processing in
`grade_with_gemini`, as the source distinguishes them:

* `failure msg` — some step inside the `try` raised (the SDK call itself,
  `json.loads` on the matched text, or `int(...)` on the score field);
* `noJson` — the call returned text containing no braced region;
* `parsed s fb` — the braced region parsed and
  `s = int(parsed.get("score", 0))`, `fb = str(parsed.get("feedback", ""))`. -/
inductive GeminiResult : Type
  | failure : String → GeminiResult
  | noJson : GeminiResult
  | parsed : Int → String → GeminiResult

/-- `grade_with_gemini` from src/api/server.py: an empty API key
short-circuits; otherwise the outcome of the call is folded into a
`(score, feedback)` pair, with the parsed score clamped by
`max(0, min(5, score))`. -/
def grade_with_gemini (apiKey : String) (res : GeminiResult) : Int × String :=
  if apiKey == "" then
    (0, "No API key provided; cannot grade. Provide GEMINI_API_KEY.")
  else
    match res with
    | GeminiResult.failure msg => (0, "Error grading: " ++ msg)
    | GeminiResult.noJson => (0, "Grader returned unexpected format.")
    | GeminiResult.parsed s fb => (max 0 (min 5 s), fb)

/-- The `/grade` endpoint: it re-reads the score of the
`grade_with_gemini` result (always an `int`, so the `int(...)` there never
raises) and clamps it again before building the `GradeResponse`. -/
def grade_endpoint (apiKey : String) (res : GeminiResult) : Int × String :=
  let result := grade_with_gemini apiKey res
  (max 0 (min 5 result.1), result.2)

/-! ### Transcript aggregation (src/app.py `generate_summary_report`) -/

/-- One graded interaction as appended to `st.session_state["qa"]`:
`{question, answer, score, feedback, time_taken}`. -/
structure Interaction : Type where
  question : String
  answer : String
  score : Int
  feedback : String
  time_taken : ℚ
deriving DecidableEq

/-- Round half to even to an integer (the semantics of Python `round` on
an exactly representable value). -/
def roundHE (q : ℚ) : ℤ :=
  if q - ⌊q⌋ < 1 / 2 then ⌊q⌋
  else if 1 / 2 < q - ⌊q⌋ then ⌊q⌋ + 1
  else if ⌊q⌋ % 2 = 0 then ⌊q⌋ else ⌊q⌋ + 1

/-- Python `round(x, 1)`. -/
def pyRound1 (q : ℚ) : ℚ :=
  (roundHE (q * 10) : ℚ) / 10

/-- Python `round(x, 2)`. -/
def pyRound2 (q : ℚ) : ℚ :=
  (roundHE (q * 100) : ℚ) / 100

/-- `sum(item.get("score", 0) for item in qa_list) / len(qa_list)`. -/
def meanScore (qa : List Interaction) : ℚ :=
  (qa.map (fun i => (i.score : ℚ))).sum / qa.length

/-- `np.mean([item.get("time_taken", 15) for item in qa_list])`. -/
def meanTime (qa : List Interaction) : ℚ :=
  (qa.map (fun i => i.time_taken)).sum / qa.length

/-- The `strengths` list built by the loop in `generate_summary_report`:
one truncated question title per interaction with `score >= 4`. -/
def strengthsRaw (qa : List Interaction) : List String :=
  qa.filterMap (fun item =>
    if 4 ≤ item.score then some (pyTake item.question 50 ++ "...") else none)

/-- The `weaknesses` list built by the same loop: the `elif score <= 2`
arm, reached only when the `score >= 4` test failed. -/
def weaknessesRaw (qa : List Interaction) : List String :=
  qa.filterMap (fun item =>
    if 4 ≤ item.score then none
    else if item.score ≤ 2 then some (pyTake item.question 50 ++ "...") else none)

/-- The constant learning-path recommendation list. -/
def learningPathConst : List String :=
  ["Master lookup functions: VLOOKUP, INDEX/MATCH, XLOOKUP",
   "Build complex PivotTables with calculated fields",
   "Learn Power Query for data transformation",
   "Practice data visualization and chart selection",
   "Develop VBA skills for automation"]

/-- The dictionary returned by `generate_summary_report`. -/
structure Report : Type where
  strengths : List String
  weaknesses : List String
  learning_path : List String
  average_score : ℚ
  time_efficiency : ℚ
deriving DecidableEq

/-- `generate_summary_report` from src/app.py (lines 544-580).
`if not qa_list:` is the emptiness test on the transcript; `strengths or
[...]` substitutes the default exactly when the built list is empty. -/
def generate_summary_report (qa : List Interaction) : Report :=
  match qa with
  | [] =>
    { strengths := ["No answers provided"],
      weaknesses := ["Provide answers to receive feedback"],
      learning_path := ["Start with basic Excel tutorials and practice exercises."],
      average_score := 0,
      time_efficiency := 0 }
  | _ :: _ =>
    let strengths := strengthsRaw qa
    let weaknesses := weaknessesRaw qa
    { strengths := if strengths.isEmpty then ["Good overall understanding"] else strengths,
      weaknesses := if weaknesses.isEmpty then ["Room for improvement in advanced topics"] else weaknesses,
      learning_path := learningPathConst,
      average_score := pyRound2 (meanScore qa),
      time_efficiency := pyRound1 ((15 - meanTime qa) / 15 * 100) }

/-! ### Rating bands (src/report_generator.py `overall_rating`) -/

/-- `overall_rating` from src/report_generator.py (lines 17-30). -/
def overall_rating (avg_score : ℚ) : String :=
  if 4.5 ≤ avg_score then "Outstanding (Top 5%)"
  else if 4.0 ≤ avg_score then "Excellent (Top 15%)"
  else if 3.5 ≤ avg_score then "Strong (Above Average)"
  else if 3.0 ≤ avg_score then "Competent (Average)"
  else if 2.0 ≤ avg_score then "Developing (Below Average)"
  else "Needs Improvement (Bottom 20%)"

/-! ### The static question bank (src/app.py `QUESTION_BANK`, lines 45-130) -/

/-- A question record; fields that a given question type does not use keep
their defaults, matching the keys present in the source dictionaries. -/
structure Question : Type where
  text : String
  qtype : String
  level : String
  options : List String := []
  correct : Option Int := none
  answer : Option String := none
  alternative_answers : List String := []
  visual_data : Option String := none
deriving DecidableEq

/-- The enhanced question bank of src/app.py. -/
def QUESTION_BANK : List Question :=
  [{ text := "What is the primary difference between VLOOKUP and XLOOKUP functions?",
     qtype := "mcq", level := "intermediate",
     options := ["XLOOKUP can only search left to right",
                 "XLOOKUP can search in both directions and has better error handling",
                 "VLOOKUP is faster than XLOOKUP",
                 "There is no difference"],
     correct := some 1 },
   { text := "Complete the formula: To sum values in cells A1 to A10 where corresponding B1 to B10 equals \x27Sales\x27, use =______(B1:B10,\x27Sales\x27,A1:A10)",
     qtype := "fill_blank", level := "basic", answer := some "SUMIF" },
   { text := "Analyze the sales data chart below. What is the trend and which month had the highest growth rate?",
     qtype := "visual_analysis", level := "advanced", visual_data := some "sales_trend" },
   { text := "Which Excel function would you use to find the most frequently occurring value in a dataset?",
     qtype := "mcq", level := "intermediate",
     options := ["AVERAGE", "MEDIAN", "MODE.SNGL", "COUNT"],
     correct := some 2 },
   { text := "In PivotTables, the ______ area is used to aggregate numerical data.",
     qtype := "fill_blank", level := "basic", answer := some "VALUES" },
   { text := "Look at the data table below. Create a PivotTable strategy to analyze product performance by region and quarter.",
     qtype := "data_analysis", level := "advanced" },
   { text := "What keyboard shortcut opens the \x27Go To Special\x27 dialog in Excel?",
     qtype := "mcq", level := "intermediate",
     options := ["Ctrl + G then Alt + S", "Ctrl + Shift + G", "F5 then Alt + S", "Both A and C"],
     correct := some 3 },
   { text := "The Excel function =IF(A1>100,A1*0.1,A1*0.05) calculates a ______ based on the value in A1.",
     qtype := "fill_blank", level := "intermediate", answer := some "commission",
     alternative_answers := ["discount", "percentage", "rate"] },
   { text := "Examine the scatter plot below showing sales vs. advertising spend. What type of relationship exists and what would be your recommendation?",
     qtype := "visual_analysis", level := "advanced", visual_data := some "scatter_analysis" },
   { text := "Which of these is NOT a valid Excel chart type?",
     qtype := "mcq", level := "basic",
     options := ["Waterfall Chart", "Sunburst Chart", "Treemap Chart", "Network Chart"],
     correct := some 3 }]

/-! ### Auxiliary predicates used by the claim statements -/

/-- The clamp invariant: a score lies in the closed integer range `[0, 5]`. -/
abbrev scoreInRange (n : Int) : Prop := 0 ≤ n ∧ n ≤ 5

/-- The clamp invariant for the fallible MCQ branch: every successfully
returned score is in range. -/
abbrev exceptScoreOk : Except String (Int × String) → Prop
  | Except.ok r => scoreInRange r.1
  | Except.error _ => True

/-- An upstream `/grade` payload whose (converted) score is already in
range; the hypothesis under which the app-side text branch preserves the
clamp invariant. -/
def httpPayloadOk : HttpOutcome → Bool
  | HttpOutcome.okJson (some s) _ => decide (0 ≤ s ∧ s ≤ 5)
  | _ => true

/-- The exact-match clause of the fill-blank claim, read off the spec:
the lowercased trimmed submission equals the canonical answer or some
alternative under the case-insensitive trimmed comparison.  (This one
matches the code.) -/
def fillBlankClaimExact (qa : Option String) (alts : List String) (ans : String) : Prop :=
  pyLowerStrip ans = pyLowerStrip (qa.getD "")
    ∨ ∃ a ∈ alts, pyLowerStrip ans = pyLowerStrip a

/-- The substring clause of the fill-blank claim, read off the spec with
the same case-insensitive trimmed comparison as the exact clause: the
lowercased trimmed canonical answer or some lowercased trimmed alternative
occurs inside the lowercased trimmed submission. -/
def fillBlankClaimSub (qa : Option String) (alts : List String) (ans : String) : Prop :=
  strIn (pyLowerStrip (qa.getD "")) (pyLowerStrip ans) = true
    ∨ ∃ a ∈ alts, strIn (pyLowerStrip a) (pyLowerStrip ans) = true

/-- The substring condition the code actually tests: the lowercased
trimmed canonical answer, or some alternative taken verbatim (neither
lowercased nor trimmed), occurs inside the lowercased trimmed
submission. -/
def fillBlankCodeSub (qa : Option String) (alts : List String) (ans : String) : Prop :=
  strIn (pyLowerStrip (qa.getD "")) (pyLowerStrip ans) = true
    ∨ ∃ a ∈ alts, strIn a (pyLowerStrip ans) = true

instance (qa : Option String) (alts : List String) (ans : String) :
    Decidable (fillBlankClaimExact qa alts ans) := by
  unfold fillBlankClaimExact; infer_instance

instance (qa : Option String) (alts : List String) (ans : String) :
    Decidable (fillBlankClaimSub qa alts ans) := by
  unfold fillBlankClaimSub; infer_instance

instance (qa : Option String) (alts : List String) (ans : String) :
    Decidable (fillBlankCodeSub qa alts ans) := by
  unfold fillBlankCodeSub; infer_instance

/-! ### Helper lemmas -/

lemma textFallback_range (a : String) : scoreInRange (textFallback a).1 := by
  unfold textFallback
  split <;> exact ⟨by norm_num, by norm_num⟩

lemma pyIndex_valid (l : List String) (c : Int) (h0 : 0 ≤ c)
    (hlt : c.toNat < l.length) : pyIndex l c = some (l.getD c.toNat "") := by
  have hg : l[c.toNat]? = some (l[c.toNat]) := List.getElem?_eq_getElem hlt
  unfold pyIndex
  rw [if_pos h0, List.get?_eq_getElem?, hg, List.getD_eq_getElem?_getD, hg]
  rfl

lemma roundHE_intCast (n : ℤ) : roundHE (n : ℚ) = n := by
  unfold roundHE
  rw [Int.floor_intCast]
  norm_num

lemma pyRound1_intCast (n : ℤ) : pyRound1 (n : ℚ) = (n : ℚ) := by
  unfold pyRound1
  have h : (n : ℚ) * 10 = ((n * 10 : ℤ) : ℚ) := by push_cast; ring
  rw [h, roundHE_intCast]
  push_cast
  ring

lemma roundHE_nonneg (q : ℚ) (h : 0 ≤ q) : 0 ≤ roundHE q := by
  unfold roundHE
  have hf : (0 : ℤ) ≤ ⌊q⌋ := Int.floor_nonneg.mpr h
  split_ifs <;> omega

lemma roundHE_nonpos (q : ℚ) (h : q ≤ 0) : roundHE q ≤ 0 := by
  unfold roundHE
  have hf : ⌊q⌋ ≤ 0 := Int.floor_nonpos h
  split_ifs with h1 h2 h3
  · exact hf
  · have hx : (⌊q⌋ : ℚ) < 0 := by linarith
    have hneg : ⌊q⌋ < 0 := by exact_mod_cast hx
    omega
  · exact hf
  · have hr : q - ⌊q⌋ = 1 / 2 := le_antisymm (not_lt.mp h2) (not_lt.mp h1)
    have hx : (⌊q⌋ : ℚ) < 0 := by linarith
    have hneg : ⌊q⌋ < 0 := by exact_mod_cast hx
    omega

lemma pyRound1_nonneg (q : ℚ) (h : 0 ≤ q) : 0 ≤ pyRound1 q := by
  unfold pyRound1
  have h10 : (0 : ℚ) ≤ q * 10 := by positivity
  have hr := roundHE_nonneg _ h10
  have hc : (0 : ℚ) ≤ (roundHE (q * 10) : ℚ) := by exact_mod_cast hr
  positivity

lemma pyRound1_nonpos (q : ℚ) (h : q ≤ 0) : pyRound1 q ≤ 0 := by
  unfold pyRound1
  have h10 : q * 10 ≤ 0 := by nlinarith
  have hr := roundHE_nonpos _ h10
  have hc : (roundHE (q * 10) : ℚ) ≤ 0 := by exact_mod_cast hr
  linarith [div_nonpos_of_nonpos_of_nonneg hc (by norm_num : (0 : ℚ) ≤ 10)]

lemma strengthsRaw_eq_nil (qa : List Interaction) :
    strengthsRaw qa = [] ↔ ∀ i ∈ qa, ¬ 4 ≤ i.score := by
  simp [strengthsRaw, List.filterMap_eq_nil_iff]

lemma weakEntry_none (i : Interaction) :
    (if 4 ≤ i.score then none
     else if i.score ≤ 2 then some (pyTake i.question 50 ++ "...") else none) = none
      ↔ ¬ i.score ≤ 2 := by
  split_ifs with h1 h2 <;> simp <;> omega

lemma weaknessesRaw_eq_nil (qa : List Interaction) :
    weaknessesRaw qa = [] ↔ ∀ i ∈ qa, ¬ i.score ≤ 2 := by
  simp only [weaknessesRaw, List.filterMap_eq_nil_iff]
  exact ⟨fun h i hi => (weakEntry_none i).mp (h i hi),
         fun h i hi => (weakEntry_none i).mpr (h i hi)⟩

lemma fillBlankExact_char (qa : Option String) (alts : List String) (ans : String) :
    (pyLowerStrip ans == pyLowerStrip (qa.getD "")
      || (alts.map (fun a => pyLowerStrip a)).contains (pyLowerStrip ans)) = true
      ↔ fillBlankClaimExact qa alts ans := by
  unfold fillBlankClaimExact
  have hc : ((alts.map (fun a => pyLowerStrip a)).contains (pyLowerStrip ans) = true)
      ↔ pyLowerStrip ans ∈ alts.map (fun a => pyLowerStrip a) := List.elem_iff
  simp only [Bool.or_eq_true, beq_iff_eq, hc, List.mem_map]
  constructor
  · rintro (h | ⟨a, ha, hval⟩)
    · exact Or.inl h
    · exact Or.inr ⟨a, ha, hval.symm⟩
  · rintro (h | ⟨a, ha, hval⟩)
    · exact Or.inl h
    · exact Or.inr ⟨a, ha, hval.symm⟩

lemma fillBlankSub_char (qa : Option String) (alts : List String) (ans : String) :
    (strIn (pyLowerStrip (qa.getD "")) (pyLowerStrip ans)
      || alts.any (fun alt => strIn alt (pyLowerStrip ans))) = true
      ↔ fillBlankCodeSub qa alts ans := by
  unfold fillBlankCodeSub
  simp [List.any_eq_true]

/-! ### Claim C1 — the clamp invariant -/

/-- C1, counterexample.  The claim says every score returned by the
grading operation, including `grade_answer` in the app, lies in `[0, 5]`
for every upstream grader payload, including out-of-range scores.  The
free-text branch of `grade_answer` passes the upstream integer through
without clamping: a 2xx payload whose score field converts to `9` makes
`grade_answer` return `9`. -/
theorem c1_counterexample :
    gradeText "ok" (HttpOutcome.okJson (some 9) "Great") = (9, "Great")
    ∧ ¬ scoreInRange (gradeText "ok" (HttpOutcome.okJson (some 9) "Great")).1 :=
  ⟨rfl, by decide⟩

/-- C1, amended.  The `/grade` endpoint (and `grade_with_gemini` inside
it) always returns a score in `[0, 5]`; in the app, the MCQ, fill-blank
and every failure/fallback path return scores in `[0, 5]`, and the
free-text branch does so whenever the upstream payload score is already
in range (`httpPayloadOk`) — it is passed through unclamped. -/
theorem c1_amended_clamp (k : String) (o : GeminiResult) (qc : Option Int)
    (opts : List String) (sel : Int) (qa : Option String) (alts : List String)
    (fillAns textAns : String) (h : HttpOutcome) (hok : httpPayloadOk h = true) :
    scoreInRange (grade_with_gemini k o).1
    ∧ scoreInRange (grade_endpoint k o).1
    ∧ exceptScoreOk (gradeMcq qc opts sel)
    ∧ scoreInRange (gradeFillBlank qa alts fillAns).1
    ∧ scoreInRange (gradeText textAns h).1 := by
  refine ⟨?_, ?_, ?_, ?_, ?_⟩
  · unfold grade_with_gemini
    split
    · exact ⟨le_refl 0, by norm_num⟩
    · cases o with
      | failure msg => exact ⟨le_refl 0, by norm_num⟩
      | noJson => exact ⟨le_refl 0, by norm_num⟩
      | parsed s fb => exact ⟨le_max_left 0 _, show max 0 (min 5 s) ≤ 5 by omega⟩
  · unfold grade_endpoint
    exact ⟨le_max_left 0 _, show max 0 (min 5 (grade_with_gemini k o).1) ≤ 5 by omega⟩
  · unfold gradeMcq
    dsimp only
    split
    · exact ⟨by norm_num, by norm_num⟩
    · split
      · exact ⟨by norm_num, by norm_num⟩
      · trivial
  · unfold gradeFillBlank
    dsimp only
    split
    · exact ⟨by norm_num, by norm_num⟩
    · split
      · exact ⟨by norm_num, by norm_num⟩
      · exact ⟨by norm_num, by norm_num⟩
  · cases h with
    | exn => exact textFallback_range textAns
    | notOk => exact ⟨show (0 : ℤ) ≤ 2 by norm_num, show (2 : ℤ) ≤ 5 by norm_num⟩
    | okBadJson => exact textFallback_range textAns
    | okJson conv fb =>
      cases conv with
      | none => exact textFallback_range textAns
      | some s => exact of_decide_eq_true hok

/-- C1, witness: a payload with an in-range score, graded in range by the
app text branch. -/
theorem c1_witness :
    httpPayloadOk (HttpOutcome.okJson (some 4) "Good explanation") = true
    ∧ scoreInRange (gradeText "my answer" (HttpOutcome.okJson (some 4) "Good explanation")).1 :=
  ⟨by decide, (c1_amended_clamp "" GeminiResult.noJson none [] 0 none [] "" "my answer"
      (HttpOutcome.okJson (some 4) "Good explanation") (by decide)).2.2.2.2⟩

/-! ### Claim C2 — upstream service errors -/

/-- C2, counterexample.  The claim says every upstream service error is
converted to a zero-score result at the grading boundary.  In the app
(`grade_answer`), a network failure yields the length fallback with score
`2` (or `3`), never `0`. -/
theorem c2_counterexample :
    gradeText "hi" HttpOutcome.exn = (2, "Answer needs more detail and explanation.")
    ∧ (gradeText "hi" HttpOutcome.exn).1 ≠ 0 :=
  ⟨rfl, by decide⟩

/-- C2, amended.  Upstream service errors are caught and converted to an
ordinary result carrying a diagnostic feedback string (totality of the
embedded functions; no exception escapes): at the server boundary
(`grade_with_gemini`) the converted result has score `0`, while in the
app (`grade_answer`) an exception or unparseable payload yields the local
length fallback with score `2` or `3`, and a non-2xx response yields
`(2, "Answer evaluated.")`. -/
theorem c2_amended_error_paths (k msg a : String) :
    (grade_with_gemini k (GeminiResult.failure msg)).1 = 0
    ∧ (grade_with_gemini k GeminiResult.noJson).1 = 0
    ∧ ((gradeText a HttpOutcome.exn).1 = 2 ∨ (gradeText a HttpOutcome.exn).1 = 3)
    ∧ gradeText a HttpOutcome.notOk = (2, "Answer evaluated.")
    ∧ ((gradeText a HttpOutcome.okBadJson).1 = 2 ∨ (gradeText a HttpOutcome.okBadJson).1 = 3) := by
  refine ⟨?_, ?_, ?_, rfl, ?_⟩
  · unfold grade_with_gemini
    split <;> rfl
  · unfold grade_with_gemini
    split <;> rfl
  · show (textFallback a).1 = 2 ∨ (textFallback a).1 = 3
    unfold textFallback
    split
    · exact Or.inr rfl
    · exact Or.inl rfl
  · show (textFallback a).1 = 2 ∨ (textFallback a).1 = 3
    unfold textFallback
    split
    · exact Or.inr rfl
    · exact Or.inl rfl

/-- C2, witness: concrete error-path instances — a server-side failure
converted to score 0 and an app-side non-2xx response converted to the
score-2 result. -/
theorem c2_witness :
    (grade_with_gemini "key123" (GeminiResult.failure "timeout")).1 = 0
    ∧ gradeText "short" HttpOutcome.notOk = (2, "Answer evaluated.") :=
  ⟨(c2_amended_error_paths "key123" "timeout" "short").1,
   (c2_amended_error_paths "key123" "timeout" "short").2.2.2.1⟩

/-! ### Claim C3 — time efficiency -/

/-- C3, counterexample.  The claim says `time_efficiency` is clamped at
0% and never negative even when the mean time exceeds the 15-unit budget.
A transcript whose single interaction took 30 time-units yields
`time_efficiency = -100`. -/
theorem c3_counterexample :
    (generate_summary_report [⟨"q", "a", 0, "f", 30⟩]).time_efficiency = -100
    ∧ ¬ 0 ≤ (generate_summary_report [⟨"q", "a", 0, "f", 30⟩]).time_efficiency := by
  have hm : meanTime [(⟨"q", "a", 0, "f", 30⟩ : Interaction)] = 30 := by
    simp [meanTime]
  have h : (generate_summary_report [⟨"q", "a", 0, "f", 30⟩]).time_efficiency = -100 := by
    show pyRound1 ((15 - meanTime [⟨"q", "a", 0, "f", 30⟩]) / 15 * 100) = -100
    rw [hm]
    have he : ((15 : ℚ) - 30) / 15 * 100 = ((-100 : ℤ) : ℚ) := by norm_num
    rw [he, pyRound1_intCast]
    norm_num
  exact ⟨h, by rw [h]; norm_num⟩

/-- C3, amended.  For every non-empty transcript, `time_efficiency`
equals the percentage of the fixed 15-unit per-question budget saved by
the mean time taken (rounded to one decimal), with no clamp at 0%: it is
nonnegative whenever the mean is within the budget and nonpositive
whenever the mean reaches or exceeds it (the app itself never records
`time_taken > 15`, so in app-produced transcripts it is nonnegative). -/
theorem c3_amended_time_efficiency (qa : List Interaction) (h : qa ≠ []) :
    (generate_summary_report qa).time_efficiency = pyRound1 ((15 - meanTime qa) / 15 * 100)
    ∧ (meanTime qa ≤ 15 → 0 ≤ (generate_summary_report qa).time_efficiency)
    ∧ (15 ≤ meanTime qa → (generate_summary_report qa).time_efficiency ≤ 0) := by
  obtain ⟨x, xs, rfl⟩ := List.exists_cons_of_ne_nil h
  refine ⟨rfl, ?_, ?_⟩
  · intro hle
    show 0 ≤ pyRound1 ((15 - meanTime (x :: xs)) / 15 * 100)
    apply pyRound1_nonneg
    have h1 : (0 : ℚ) ≤ 15 - meanTime (x :: xs) := by linarith
    positivity
  · intro hge
    show pyRound1 ((15 - meanTime (x :: xs)) / 15 * 100) ≤ 0
    apply pyRound1_nonpos
    have h1 : 15 - meanTime (x :: xs) ≤ 0 := by linarith
    have h2 : (15 - meanTime (x :: xs)) / 15 ≤ 0 :=
      div_nonpos_of_nonpos_of_nonneg h1 (by norm_num)
    nlinarith

/-- C3, witness: a transcript with mean time 10 (within budget) has
nonnegative time efficiency. -/
theorem c3_witness :
    0 ≤ (generate_summary_report [⟨"q", "a", 4, "f", 10⟩]).time_efficiency := by
  refine (c3_amended_time_efficiency [⟨"q", "a", 4, "f", 10⟩] (by simp)).2.1 ?_
  have hm : meanTime [(⟨"q", "a", 4, "f", 10⟩ : Interaction)] = 10 := by simp [meanTime]
  rw [hm]
  norm_num

/-! ### Claim C4 — fill-blank grading -/

/-- C4, counterexample.  The claim says score `3` is returned whenever
the canonical answer or any alternative occurs (under the case-insensitive
trimmed comparison used throughout the claim) as a substring of the
lowercased trimmed submission.  With alternative `"RATE"` and submission
`"a rate b"`, the exact clause fails and the claimed substring clause
holds, yet the code returns score `1`: alternatives are compared verbatim
(not lowercased) in the substring test. -/
theorem c4_counterexample :
    ¬ fillBlankClaimExact (some "X") ["RATE"] "a rate b"
    ∧ fillBlankClaimSub (some "X") ["RATE"] "a rate b"
    ∧ gradeFillBlank (some "X") ["RATE"] "a rate b" = (1, "Incorrect. The answer was: X")
    ∧ (gradeFillBlank (some "X") ["RATE"] "a rate b").1 ≠ 3 :=
  ⟨by decide, by decide, by decide, by decide⟩

/-- C4, amended.  Fill-blank grading returns `5` exactly on the
case-insensitive whitespace-trimmed match against the canonical answer or
an alternative; otherwise `3` when the lowercased trimmed canonical
answer, or an alternative taken verbatim, occurs as a substring of the
lowercased trimmed submission; otherwise `1` with feedback revealing the
canonical answer. -/
theorem c4_amended_fill_blank (qa : Option String) (alts : List String) (ans : String) :
    (fillBlankClaimExact qa alts ans →
      gradeFillBlank qa alts ans = (5, "Correct! Perfect answer."))
    ∧ (¬ fillBlankClaimExact qa alts ans → fillBlankCodeSub qa alts ans →
      gradeFillBlank qa alts ans = (3, "Partially correct. Close, but not exact."))
    ∧ (¬ fillBlankClaimExact qa alts ans → ¬ fillBlankCodeSub qa alts ans →
      gradeFillBlank qa alts ans = (1, "Incorrect. The answer was: " ++ pyShow qa)) := by
  have hexact := fillBlankExact_char qa alts ans
  have hsub := fillBlankSub_char qa alts ans
  refine ⟨?_, ?_, ?_⟩
  · intro h
    unfold gradeFillBlank
    dsimp only
    rw [if_pos (hexact.mpr h)]
  · intro h hs
    unfold gradeFillBlank
    dsimp only
    rw [if_neg fun hb => h (hexact.mp hb), if_pos (hsub.mpr hs)]
  · intro h hs
    unfold gradeFillBlank
    dsimp only
    rw [if_neg fun hb => h (hexact.mp hb), if_neg fun hb => hs (hsub.mp hb)]

/-- C4, witness: the canonical answer `"SUMIF"` submitted as `" sumif "`
scores 5 (spec scenario 3). -/
theorem c4_witness :
    fillBlankClaimExact (some "SUMIF") [] " sumif "
    ∧ gradeFillBlank (some "SUMIF") [] " sumif " = (5, "Correct! Perfect answer.") :=
  ⟨by decide, (c4_amended_fill_blank (some "SUMIF") [] " sumif ").1 (by decide)⟩

/-! ### Claim C5 — MCQ grading -/

/-- C5: for every MCQ question whose correct index is a valid index into
its options (the question-bank invariant), grading returns `5` when the
submitted index equals the correct index and `2` otherwise, the feedback
in the incorrect case naming the text of the correct option; `gradeMcq`
is a pure function of (options, correct index, submitted index). -/
theorem c5_mcq_grading (options : List String) (c sel : Int)
    (h0 : 0 ≤ c) (hlt : c.toNat < options.length) :
    (sel = c → gradeMcq (some c) options sel = Except.ok (5, "Correct! Well done."))
    ∧ (sel ≠ c → gradeMcq (some c) options sel =
        Except.ok (2, "Incorrect. The correct answer was: " ++ options.getD c.toNat "")) := by
  constructor
  · intro h
    simp [gradeMcq, h]
  · intro h
    simp [gradeMcq, h, pyIndex_valid options c h0 hlt]

/-- C5, witness: spec scenario 2 — options `["A","B","C","D"]`, correct
index 2; submitting 2 gives `(5, ...)` and submitting 0 gives
`(2, "Incorrect. The correct answer was: C")`. -/
theorem c5_witness :
    gradeMcq (some 2) ["A", "B", "C", "D"] 2 = Except.ok (5, "Correct! Well done.")
    ∧ gradeMcq (some 2) ["A", "B", "C", "D"] 0 =
        Except.ok (2, "Incorrect. The correct answer was: C") := by
  have h2 := (c5_mcq_grading ["A", "B", "C", "D"] 2 2 (by decide) (by decide)).1 rfl
  have h0 := (c5_mcq_grading ["A", "B", "C", "D"] 2 0 (by decide) (by decide)).2 (by decide)
  exact ⟨h2, by simpa using h0⟩

/-! ### Claims C6 and C7 — fallbacks -/

/-- C6: when the external service call fails the text/visual-analysis
grader returns the deterministic local fallback — score `3` with the
"more specific" feedback for submissions longer than 50 characters, else
score `2` with the "more detail" feedback.  (`gradeText` is a total
function, so no exception propagates.) -/
theorem c6_text_fallback (answer : String) :
    (50 < answer.length →
      gradeText answer HttpOutcome.exn = (3, "Good attempt. Consider being more specific."))
    ∧ (answer.length ≤ 50 →
      gradeText answer HttpOutcome.exn = (2, "Answer needs more detail and explanation.")) := by
  constructor
  · intro h
    simp [gradeText, textFallback, h]
  · intro h
    simp [gradeText, textFallback, Nat.not_lt.mpr h]

/-- C6, witness: a short submission graded under a timed-out service
call. -/
theorem c6_witness :
    gradeText "I would use a PivotTable" HttpOutcome.exn =
      (2, "Answer needs more detail and explanation.") :=
  (c6_text_fallback "I would use a PivotTable").2 (by decide)

/-- C7: aggregating the empty transcript returns `average_score = 0` with
the distinguished non-empty placeholder strength/weakness pair.
(`generate_summary_report` is a total function into `Report`, so no
exception, division error or undefined average can arise.) -/
theorem c7_empty_transcript :
    (generate_summary_report []).average_score = 0
    ∧ (generate_summary_report []).strengths = ["No answers provided"]
    ∧ (generate_summary_report []).weaknesses = ["Provide answers to receive feedback"]
    ∧ (generate_summary_report []).strengths ≠ []
    ∧ (generate_summary_report []).weaknesses ≠ [] :=
  ⟨rfl, rfl, rfl, by decide, by decide⟩

/-! ### Claim C8 — rating bands -/

/-- C8: `overall_rating` is a fixed total banding function: every average
in `[0, 5]` falls into exactly one of the six pairwise-disjoint bands cut
by the descending thresholds 4.5, 4.0, 3.5, 3.0 and 2.0, and receives
that band's label (equal inputs trivially receive equal bands, the map
being a function). -/
theorem c8_rating_bands (x : ℚ) (h0 : 0 ≤ x) (h5 : x ≤ 5) :
    (4.5 ≤ x ∧ x ≤ 5 ∧ overall_rating x = "Outstanding (Top 5%)")
    ∨ (4.0 ≤ x ∧ x < 4.5 ∧ overall_rating x = "Excellent (Top 15%)")
    ∨ (3.5 ≤ x ∧ x < 4.0 ∧ overall_rating x = "Strong (Above Average)")
    ∨ (3.0 ≤ x ∧ x < 3.5 ∧ overall_rating x = "Competent (Average)")
    ∨ (2.0 ≤ x ∧ x < 3.0 ∧ overall_rating x = "Developing (Below Average)")
    ∨ (0 ≤ x ∧ x < 2.0 ∧ overall_rating x = "Needs Improvement (Bottom 20%)") := by
  by_cases h1 : (4.5 : ℚ) ≤ x
  · exact Or.inl ⟨h1, h5, by rw [overall_rating, if_pos h1]⟩
  by_cases h2 : (4.0 : ℚ) ≤ x
  · exact Or.inr (Or.inl ⟨h2, lt_of_not_le h1, by rw [overall_rating, if_neg h1, if_pos h2]⟩)
  by_cases h3 : (3.5 : ℚ) ≤ x
  · exact Or.inr (Or.inr (Or.inl ⟨h3, lt_of_not_le h2,
      by rw [overall_rating, if_neg h1, if_neg h2, if_pos h3]⟩))
  by_cases h4 : (3.0 : ℚ) ≤ x
  · exact Or.inr (Or.inr (Or.inr (Or.inl ⟨h4, lt_of_not_le h3,
      by rw [overall_rating, if_neg h1, if_neg h2, if_neg h3, if_pos h4]⟩)))
  by_cases h6 : (2.0 : ℚ) ≤ x
  · exact Or.inr (Or.inr (Or.inr (Or.inr (Or.inl ⟨h6, lt_of_not_le h4,
      by rw [overall_rating, if_neg h1, if_neg h2, if_neg h3, if_neg h4, if_pos h6]⟩))))
  · exact Or.inr (Or.inr (Or.inr (Or.inr (Or.inr ⟨h0, lt_of_not_le h6,
      by rw [overall_rating, if_neg h1, if_neg h2, if_neg h3, if_neg h4, if_neg h6]⟩))))

/-- C8, witness: the average 3.67 of spec scenario 1 lands in exactly the
"Strong (Above Average)" band. -/
theorem c8_witness :
    ((4.5 : ℚ) ≤ 3.67 ∧ (3.67 : ℚ) ≤ 5 ∧ overall_rating 3.67 = "Outstanding (Top 5%)")
    ∨ ((4.0 : ℚ) ≤ 3.67 ∧ (3.67 : ℚ) < 4.5 ∧ overall_rating 3.67 = "Excellent (Top 15%)")
    ∨ ((3.5 : ℚ) ≤ 3.67 ∧ (3.67 : ℚ) < 4.0 ∧ overall_rating 3.67 = "Strong (Above Average)")
    ∨ ((3.0 : ℚ) ≤ 3.67 ∧ (3.67 : ℚ) < 3.5 ∧ overall_rating 3.67 = "Competent (Average)")
    ∨ ((2.0 : ℚ) ≤ 3.67 ∧ (3.67 : ℚ) < 3.0 ∧ overall_rating 3.67 = "Developing (Below Average)")
    ∨ ((0 : ℚ) ≤ 3.67 ∧ (3.67 : ℚ) < 2.0
        ∧ overall_rating 3.67 = "Needs Improvement (Bottom 20%)") :=
  c8_rating_bands 3.67 (by norm_num) (by norm_num)

/-! ### Claim C9 — strengths/weaknesses defaults -/

/-- C9, counterexample.  The claim says that for every transcript, empty
or not, a fixed default ("Good overall understanding") is substituted for
strengths whenever no interaction reaches the threshold.  The empty
transcript has no interaction with score ≥ 4, yet its strengths list is
the distinct placeholder `["No answers provided"]`, not the claimed
default. -/
theorem c9_counterexample :
    (generate_summary_report []).strengths = ["No answers provided"]
    ∧ "Good overall understanding" ∉ (generate_summary_report []).strengths :=
  ⟨rfl, by decide⟩

/-- C9, amended.  `generate_summary_report` always returns non-empty
strengths and weaknesses.  For a NON-empty transcript, interactions with
score ≥ 4 populate strengths and those with score ≤ 2 populate
weaknesses, with the fixed defaults ("Good overall understanding",
"Room for improvement in advanced topics") substituted when no
interaction meets the respective threshold; the EMPTY transcript instead
gets the distinct placeholder pair ("No answers provided",
"Provide answers to receive feedback"). -/
theorem c9_amended_defaults (qa : List Interaction) :
    (generate_summary_report qa).strengths ≠ []
    ∧ (generate_summary_report qa).weaknesses ≠ []
    ∧ (qa = [] →
        (generate_summary_report qa).strengths = ["No answers provided"]
        ∧ (generate_summary_report qa).weaknesses = ["Provide answers to receive feedback"])
    ∧ (qa ≠ [] →
        ((∃ i ∈ qa, 4 ≤ i.score) →
          (generate_summary_report qa).strengths = strengthsRaw qa)
        ∧ ((∀ i ∈ qa, ¬ 4 ≤ i.score) →
          (generate_summary_report qa).strengths = ["Good overall understanding"])
        ∧ ((∃ i ∈ qa, i.score ≤ 2) →
          (generate_summary_report qa).weaknesses = weaknessesRaw qa)
        ∧ ((∀ i ∈ qa, ¬ i.score ≤ 2) →
          (generate_summary_report qa).weaknesses =
            ["Room for improvement in advanced topics"])) := by
  cases qa with
  | nil =>
    exact ⟨by decide, by decide, fun _ => ⟨rfl, rfl⟩, fun h => absurd rfl h⟩
  | cons x xs =>
    have hs : (generate_summary_report (x :: xs)).strengths =
        if (strengthsRaw (x :: xs)).isEmpty then ["Good overall understanding"]
        else strengthsRaw (x :: xs) := rfl
    have hw : (generate_summary_report (x :: xs)).weaknesses =
        if (weaknessesRaw (x :: xs)).isEmpty then ["Room for improvement in advanced topics"]
        else weaknessesRaw (x :: xs) := rfl
    refine ⟨?_, ?_, fun h => absurd h (List.cons_ne_nil x xs), fun _ => ⟨?_, ?_, ?_, ?_⟩⟩
    · rw [hs]
      split
      · exact List.cons_ne_nil _ _
      · next hne => exact fun hnil => hne (by simp [hnil])
    · rw [hw]
      split
      · exact List.cons_ne_nil _ _
      · next hne => exact fun hnil => hne (by simp [hnil])
    · intro ⟨i, hi, hscore⟩
      rw [hs, if_neg ?_]
      intro hempty
      have hnil : strengthsRaw (x :: xs) = [] := by
        simpa [List.isEmpty_iff] using hempty
      exact ((strengthsRaw_eq_nil (x :: xs)).mp hnil i hi) hscore
    · intro hall
      rw [hs, if_pos ?_]
      have hnil : strengthsRaw (x :: xs) = [] := (strengthsRaw_eq_nil (x :: xs)).mpr hall
      simp [hnil]
    · intro ⟨i, hi, hscore⟩
      rw [hw, if_neg ?_]
      intro hempty
      have hnil : weaknessesRaw (x :: xs) = [] := by
        simpa [List.isEmpty_iff] using hempty
      exact ((weaknessesRaw_eq_nil (x :: xs)).mp hnil i hi) hscore
    · intro hall
      rw [hw, if_pos ?_]
      have hnil : weaknessesRaw (x :: xs) = [] := (weaknessesRaw_eq_nil (x :: xs)).mpr hall
      simp [hnil]

/-- C9, witness: a two-interaction transcript with scores 5 and 1
populates strengths from the first question and weaknesses from the
second. -/
theorem c9_witness :
    (generate_summary_report [⟨"q1", "a", 5, "good", 3⟩, ⟨"q2", "b", 1, "bad", 3⟩]).strengths
      = ["q1..."]
    ∧ (generate_summary_report [⟨"q1", "a", 5, "good", 3⟩, ⟨"q2", "b", 1, "bad", 3⟩]).weaknesses
      = ["q2..."] := by
  have h := (c9_amended_defaults
    [⟨"q1", "a", 5, "good", 3⟩, ⟨"q2", "b", 1, "bad", 3⟩]).2.2.2 (by simp)
  refine ⟨?_, ?_⟩
  · rw [h.1 (by decide)]
    decide
  · rw [h.2.2.1 (by decide)]
    decide

/-! ### Claim C10 — MCQ totality -/

/-- C10: under the precondition that the MCQ correct index is a valid
index into the options list (as in every MCQ entry of `QUESTION_BANK`),
the MCQ branch is total for every submitted index: the single list access
it performs is in bounds, so it always returns a result and never an
`IndexError`. -/
theorem c10_mcq_total (options : List String) (c sel : Int)
    (h0 : 0 ≤ c) (hlt : c.toNat < options.length) :
    ∃ r, gradeMcq (some c) options sel = Except.ok r := by
  by_cases h : sel = c
  · exact ⟨(5, "Correct! Well done."), by simp [gradeMcq, h]⟩
  · exact ⟨(2, "Incorrect. The correct answer was: " ++ options.getD c.toNat ""),
      by simp [gradeMcq, h, pyIndex_valid options c h0 hlt]⟩

/-- C10, witness: the second MCQ of the question bank (correct index 2 of
four options), with a wrong submission, still grades without error. -/
theorem c10_witness :
    ∃ r, gradeMcq (some 2) ["AVERAGE", "MEDIAN", "MODE.SNGL", "COUNT"] 0 = Except.ok r :=
  c10_mcq_total ["AVERAGE", "MEDIAN", "MODE.SNGL", "COUNT"] 2 0 (by decide) (by decide)

end MockInterviewer
